import Mathlib

/-!
Shallow embedding of `src/integrations/supabase/bookings.ts` (SkyRide booking
repository).  The module maps an application-level `Booking` to a database row,
issues four operations against a remote store (insert / two selects / update),
and normalizes every outcome into `{success, error?}` / `{bookings, error?}`
result values.

Numbers: JavaScript numbers are modelled as `Int` — the only numeric operation
in the source is `parseFloat(x.toString())`, which is the identity on every
finite number, so no floating-point behavior is relevant to the claims.
JavaScript `undefined` and `null` on optional fields are both modelled as
`Option.none`; a present value is `some`.
-/

namespace SkyRide

/-- A structured point `{lat, lng, address?}` (the `pickup_location` /
`drop_location` JSONB values and the Booking `startLocation`/`endLocation`). -/
structure Location where
  lat : Int
  lng : Int
  address : Option String
deriving DecidableEq, Repr

/-- The domain `Booking` entity (from `@/types/booking`, as described by the
data model: optional `taxiId`, optional `eta`, strings possibly empty). -/
structure Booking where
  id : String
  userName : String
  userPhone : String
  startLocation : Location
  endLocation : Location
  tier : String
  distance : Int
  fare : Int
  status : String
  taxiId : Option String
  eta : Option Int
  timestamp : Int
deriving DecidableEq, Repr

/-- The `BookingInsert` row shape built by `saveBooking` (interface
`BookingInsert` in the source): nullable `taxi_id` and `eta`, all other
columns required.  `none` is an explicit SQL `null`. -/
structure BookingRow where
  id : String
  user_name : String
  user_phone : String
  pickup_location : Location
  drop_location : Location
  taxi_tier : String
  distance : Int
  fare : Int
  status : String
  taxi_id : Option String
  eta : Option Int
  timestamp : Int
deriving DecidableEq, Repr

/-- A persisted row: the insert columns plus the server-assigned `created_at`
(modelled as an opaque optional integer; the module never reads or writes it). -/
structure StoredRow where
  row : BookingRow
  created_at : Option Int
deriving DecidableEq, Repr

/-- JavaScript `s || null` on an optional string: `undefined`, `null` and the
falsy empty string all become `null`; any other string passes through. -/
def jsOrNullStr : Option String → Option String
  | none => none
  | some s => if s = "" then none else some s

/-- JavaScript `n || null` on an optional integer: `undefined`, `null` and the
falsy `0` all become `null`; any other integer passes through. -/
def jsOrNullInt : Option Int → Option Int
  | none => none
  | some n => if n = 0 then none else some n

/-- The Booking-to-Row mapping: the `bookingData` object literal built inside
`saveBooking`.  `userName || ''` and `userPhone || ''` are the identity on
strings (the empty string maps to `''` again); `parseFloat(x.toString())` is
the identity on finite numbers; `taxiId || null` and `eta || null` are the
falsy-to-null coercions. -/
def mapToRow (b : Booking) : BookingRow :=
  { id := b.id
    user_name := b.userName
    user_phone := b.userPhone
    pickup_location := b.startLocation
    drop_location := b.endLocation
    taxi_tier := b.tier
    distance := b.distance
    fare := b.fare
    status := b.status
    taxi_id := jsOrNullStr b.taxiId
    eta := jsOrNullInt b.eta
    timestamp := b.timestamp }

/-- The Row-to-Booking mapping: the record transform shared verbatim by
`fetchUserBookings` and `fetchAllBookings` (`(data || []).map(record => ...)`).
Reads every column except `created_at`, which is dropped. -/
def mapFromRow (r : StoredRow) : Booking :=
  { id := r.row.id
    startLocation := r.row.pickup_location
    endLocation := r.row.drop_location
    tier := r.row.taxi_tier
    distance := r.row.distance
    fare := r.row.fare
    status := r.row.status
    taxiId := r.row.taxi_id
    eta := r.row.eta
    timestamp := r.row.timestamp
    userName := r.row.user_name
    userPhone := r.row.user_phone }

/-- JSON value of one field of the wire payload (enough structure to state
which keys are present and whether a value is an explicit `null`). -/
inductive JsonValue where
  | jstr (s : String)
  | jnum (n : Int)
  | jloc (l : Location)
  | jnull
deriving DecidableEq, Repr

/-- The wire form of the row payload `saveBooking` sends: the `bookingData`
object literal, key by key, in source order.  Every key is written
unconditionally; a `none` column is serialized as an explicit `null`. -/
def rowJson (r : BookingRow) : List (String × JsonValue) :=
  [("id", JsonValue.jstr r.id),
   ("user_name", JsonValue.jstr r.user_name),
   ("user_phone", JsonValue.jstr r.user_phone),
   ("pickup_location", JsonValue.jloc r.pickup_location),
   ("drop_location", JsonValue.jloc r.drop_location),
   ("taxi_tier", JsonValue.jstr r.taxi_tier),
   ("distance", JsonValue.jnum r.distance),
   ("fare", JsonValue.jnum r.fare),
   ("status", JsonValue.jstr r.status),
   ("taxi_id", (match r.taxi_id with
     | some s => JsonValue.jstr s
     | none => JsonValue.jnull)),
   ("eta", (match r.eta with
     | some n => JsonValue.jnum n
     | none => JsonValue.jnull)),
   ("timestamp", JsonValue.jnum r.timestamp)]

/-- Outcome of one remote round trip, as seen by the `try`/`catch` boundary of
an operation: either an exception is raised (locally, during request
construction, or by the client library), or the client resolves with a
`{data, error}` pair whose `error`, when present, carries a message string. -/
inductive RemoteOutcome (α : Type) where
  | raise (isError : Bool) (msg : String)
  | respond (error : Option String) (data : α)
deriving DecidableEq, Repr

/-- The message extracted in every `catch` block:
`error instanceof Error ? error.message : 'Unknown error'`. -/
def caughtMessage (isError : Bool) (msg : String) : String :=
  if isError then msg else "Unknown error"

/-- Result type of `saveBooking` and `updateBookingStatus`:
`{ success: boolean; error?: string }`. -/
structure WriteResult where
  success : Bool
  error : Option String
deriving DecidableEq, Repr

/-- Result type of the fetch operations:
`{ bookings: Booking[]; error?: string }`. -/
structure FetchResult where
  bookings : List Booking
  error : Option String
deriving DecidableEq, Repr

/-- `saveBooking`, as a total function of the remote outcome of its single
insert call: store error ⇒ `{success:false, error:message}`; raised exception
⇒ `{success:false, error:caught message}`; otherwise `{success:true}`. -/
def saveBooking : RemoteOutcome Unit → WriteResult
  | RemoteOutcome.raise isErr m => { success := false, error := some (caughtMessage isErr m) }
  | RemoteOutcome.respond (some m) _ => { success := false, error := some m }
  | RemoteOutcome.respond none _ => { success := true, error := none }

/-- Response handling of `fetchUserBookings`: store error ⇒ empty list plus the
message; raised exception ⇒ empty list plus the caught message; otherwise
`(data || []).map(mapFromRow)` with no error field. -/
def fetchUserBookings : RemoteOutcome (Option (List StoredRow)) → FetchResult
  | RemoteOutcome.raise isErr m => { bookings := [], error := some (caughtMessage isErr m) }
  | RemoteOutcome.respond (some m) _ => { bookings := [], error := some m }
  | RemoteOutcome.respond none data =>
      { bookings := (data.getD []).map mapFromRow, error := none }

/-- Response handling of `fetchAllBookings` (textually identical to
`fetchUserBookings` in the source). -/
def fetchAllBookings : RemoteOutcome (Option (List StoredRow)) → FetchResult
  | RemoteOutcome.raise isErr m => { bookings := [], error := some (caughtMessage isErr m) }
  | RemoteOutcome.respond (some m) _ => { bookings := [], error := some m }
  | RemoteOutcome.respond none data =>
      { bookings := (data.getD []).map mapFromRow, error := none }

/-- `updateBookingStatus`, as a total function of the remote outcome of its
single update call. -/
def updateBookingStatus : RemoteOutcome Unit → WriteResult
  | RemoteOutcome.raise isErr m => { success := false, error := some (caughtMessage isErr m) }
  | RemoteOutcome.respond (some m) _ => { success := false, error := some m }
  | RemoteOutcome.respond none _ => { success := true, error := none }

/-- The select request `fetchUserBookings` builds:
`.select('*').eq('user_phone', p).order('timestamp', {ascending:false})` —
and the one `fetchAllBookings` builds:
`.select('*').order('timestamp', {ascending:false}).limit(n)`. -/
structure SelectQuery where
  eqUserPhone : Option String
  limit : Option Int
deriving DecidableEq, Repr

/-- The query sent by `fetchUserBookings userPhone`: exact-match phone filter,
descending timestamp order, no limit. -/
def fetchUserBookingsQuery (userPhone : String) : SelectQuery :=
  { eqUserPhone := some userPhone, limit := none }

/-- The query sent by `fetchAllBookings limit`: no filter, descending
timestamp order, the limit argument forwarded verbatim. -/
def fetchAllBookingsQuery (limit : Int) : SelectQuery :=
  { eqUserPhone := none, limit := some limit }

/-- Descending-timestamp comparison used to model the store's
`order('timestamp', {ascending:false})`. -/
def tsGe (a b : StoredRow) : Bool :=
  b.row.timestamp ≤ a.row.timestamp

/-- Model of the remote store's documented select semantics (the store is an
external managed database, specified as: apply the `eq` filter if any, order
by `timestamp` descending, then truncate to `limit` rows server-side; a
non-positive limit is store-defined and no theorem below relies on it). -/
def runSelect (store : List StoredRow) (q : SelectQuery) : List StoredRow :=
  let filtered := match q.eqUserPhone with
    | none => store
    | some p => store.filter (fun r => r.row.user_phone = p)
  let sorted := filtered.mergeSort tsGe
  match q.limit with
  | none => sorted
  | some n => sorted.take n.toNat

/-- The update request `updateBookingStatus` builds:
`.update({ status }).eq('id', bookingId)` — a partial update carrying only the
`status` column, addressed by primary key. -/
structure UpdateQuery where
  setStatus : String
  eqId : String
deriving DecidableEq, Repr

/-- The query sent by `updateBookingStatus bookingId status`. -/
def updateBookingStatusQuery (bookingId status : String) : UpdateQuery :=
  { setStatus := status, eqId := bookingId }

/-- Model of the remote store's documented update semantics: set the carried
columns (here only `status`) on every row matching the filter, leave every
other row and every other column — `created_at` included — untouched.
Matching zero rows is not an error. -/
def runUpdate (store : List StoredRow) (q : UpdateQuery) : List StoredRow :=
  store.map fun r =>
    if r.row.id = q.eqId then { r with row := { r.row with status := q.setStatus } } else r

/-- End-to-end `fetchUserBookings` against a healthy store holding `store`. -/
def fetchUserBookingsOn (store : List StoredRow) (userPhone : String) : FetchResult :=
  fetchUserBookings
    (RemoteOutcome.respond none (some (runSelect store (fetchUserBookingsQuery userPhone))))

/-- End-to-end `fetchAllBookings` against a healthy store holding `store`. -/
def fetchAllBookingsOn (store : List StoredRow) (limit : Int) : FetchResult :=
  fetchAllBookings
    (RemoteOutcome.respond none (some (runSelect store (fetchAllBookingsQuery limit))))

/-- The store contents after a healthy `updateBookingStatus` call. -/
def updateBookingStatusOn (store : List StoredRow) (bookingId status : String) :
    List StoredRow :=
  runUpdate store (updateBookingStatusQuery bookingId status)

/-! Helper lemmas about the falsy-to-null coercions and the sort order. -/

theorem jsOrNullStr_idem (o : Option String) : jsOrNullStr (jsOrNullStr o) = jsOrNullStr o := by
  cases o with
  | none => rfl
  | some s => by_cases h : s = "" <;> simp [jsOrNullStr, h]

theorem jsOrNullInt_idem (o : Option Int) : jsOrNullInt (jsOrNullInt o) = jsOrNullInt o := by
  cases o with
  | none => rfl
  | some n => by_cases h : n = 0 <;> simp [jsOrNullInt, h]

theorem jsOrNullStr_eq_self (o : Option String) (h : o ≠ some "") : jsOrNullStr o = o := by
  cases o with
  | none => rfl
  | some s =>
    have hs : s ≠ "" := fun hs => h (by rw [hs])
    simp [jsOrNullStr, hs]

theorem jsOrNullInt_eq_self (o : Option Int) (h : o ≠ some 0) : jsOrNullInt o = o := by
  cases o with
  | none => rfl
  | some n =>
    have hn : n ≠ 0 := fun hn => h (by rw [hn])
    simp [jsOrNullInt, hn]

theorem tsGe_trans (a b c : StoredRow) (hab : tsGe a b = true) (hbc : tsGe b c = true) :
    tsGe a c = true := by
  simp [tsGe] at *
  omega

theorem tsGe_total (a b : StoredRow) : (tsGe a b || tsGe b a) = true := by
  simp [tsGe]
  omega

/-- A Booking with `eta` set to the value 0 (a set, falsy value). -/
def bookingEtaZero : Booking :=
  { id := "BK1700000000000"
    userName := "Ada"
    userPhone := "555-0100"
    startLocation := { lat := 12, lng := 77, address := some "Origin" }
    endLocation := { lat := 13, lng := 78, address := none }
    tier := "economy"
    distance := 4
    fare := 120
    status := "pending"
    taxiId := some "TX-7"
    eta := some 0
    timestamp := 1700000000000 }

/-- Claim C1, counterexample: a Booking with the falsy field value `eta = 0`
does NOT survive the row round trip — `eta || null` coerces the set value 0 to
`null`, and it comes back unset, so the claimed losslessness on falsy field
values fails at this concrete input. -/
theorem roundtrip_drops_falsy_eta :
    mapFromRow { row := mapToRow bookingEtaZero, created_at := none } ≠ bookingEtaZero := by
  decide

/-- Claim C1 (amended): mapping a Booking to a row and back yields a Booking
equal to the original on every field (nothing dropped, nothing invented,
`created_at` ignored), for every Booking whose `eta`, if set, is nonzero and
whose `taxiId`, if set, is non-empty.  An empty `userName` or `userPhone`
still round-trips; only a set falsy `eta = 0` or `taxiId = ""` is lost
(coerced to null by `|| null`). -/
theorem roundtrip_lossless_of_not_falsy (b : Booking) (c : Option Int)
    (ht : b.taxiId ≠ some "") (he : b.eta ≠ some 0) :
    mapFromRow { row := mapToRow b, created_at := c } = b := by
  cases b
  simp_all [mapFromRow, mapToRow, jsOrNullStr_eq_self _ ht, jsOrNullInt_eq_self _ he]

/-- Claim C1, witness: the round-trip theorem applied at a concrete Booking
with an empty `userName`, a set non-empty `taxiId` and a set nonzero `eta`. -/
theorem roundtrip_lossless_witness :
    ({ bookingEtaZero with userName := "", eta := some 3 } : Booking).taxiId ≠ some "" ∧
    ({ bookingEtaZero with userName := "", eta := some 3 } : Booking).eta ≠ some 0 ∧
    mapFromRow { row := mapToRow { bookingEtaZero with userName := "", eta := some 3 },
                 created_at := some 99 }
      = { bookingEtaZero with userName := "", eta := some 3 } :=
  ⟨by decide, by decide,
   roundtrip_lossless_of_not_falsy { bookingEtaZero with userName := "", eta := some 3 }
     (some 99) (by decide) (by decide)⟩

/-- Claim C3: the Booking-to-Row mapping is stable under repetition —
`mapToRow (mapFromRow (mapToRow B)) = mapToRow B` for every Booking `B`
(whatever `created_at` the intermediate row carries), because the
falsy-to-null coercions are idempotent. -/
theorem mapToRow_roundtrip_stable (b : Booking) (c : Option Int) :
    mapToRow (mapFromRow { row := mapToRow b, created_at := c }) = mapToRow b := by
  simp [mapToRow, mapFromRow, jsOrNullStr_idem, jsOrNullInt_idem]

/-- Claim C4: when `taxiId` (resp. `eta`) is unset on the Booking, the wire
payload built by `saveBooking` still carries the `taxi_id` (resp. `eta`) key,
bound to an explicit null — the key is present, never omitted. -/
theorem unset_optionals_explicit_null (b : Booking) :
    (b.taxiId = none → (rowJson (mapToRow b)).lookup "taxi_id" = some JsonValue.jnull) ∧
    (b.eta = none → (rowJson (mapToRow b)).lookup "eta" = some JsonValue.jnull) := by
  constructor
  · intro h
    simp [rowJson, mapToRow, jsOrNullStr, List.lookup, h]
  · intro h
    simp [rowJson, mapToRow, jsOrNullInt, List.lookup, h]

/-- A Booking with both optional fields unset. -/
def bookingNoOptionals : Booking :=
  { bookingEtaZero with taxiId := none, eta := none }

/-- Claim C4, witness: the explicit-null theorem applied at a concrete Booking
with both `taxiId` and `eta` unset. -/
theorem unset_optionals_explicit_null_witness :
    (rowJson (mapToRow bookingNoOptionals)).lookup "taxi_id" = some JsonValue.jnull ∧
    (rowJson (mapToRow bookingNoOptionals)).lookup "eta" = some JsonValue.jnull :=
  ⟨(unset_optionals_explicit_null bookingNoOptionals).1 rfl,
   (unset_optionals_explicit_null bookingNoOptionals).2 rfl⟩

/-- Claim C9: `fetchAllBookings` forwards its limit argument to the store
verbatim — the query it builds carries exactly the given limit, for every
value including zero and negative ones; no clamping or alteration occurs in
this module. -/
theorem fetchAllBookings_limit_verbatim (n : Int) :
    (fetchAllBookingsQuery n).limit = some n :=
  rfl

/-- Claim C10: when the store responds with no error but a null/absent data
payload, both fetch operations return a success result — empty bookings list,
no error field — rather than failing or throwing (`data || []`). -/
theorem null_data_empty_success :
    fetchUserBookings (RemoteOutcome.respond none none)
      = { bookings := [], error := none } ∧
    fetchAllBookings (RemoteOutcome.respond none none)
      = { bookings := [], error := none } :=
  ⟨rfl, rfl⟩

/-- Claim C2, counterexample: when the store reports an error whose message is
the empty string, `saveBooking` returns `{success:false, error:""}` — the
failure is normalized, but the error message is empty, refuting the claim
that every failure carries a non-empty error message. -/
theorem error_message_can_be_empty :
    (saveBooking (RemoteOutcome.respond (some "") ())).success = false ∧
    ((saveBooking (RemoteOutcome.respond (some "") ())).error.getD "nonempty").length = 0 := by
  decide

/-- Claim C2 (amended): every error — raised exception or store-reported — is
normalized by each of the four operations into the fixed failure shape
(`{success:false, error:string}` for the writes, `{bookings:[], error:string}`
for the fetches) and never propagated: each operation is a total function of
its remote outcome.  The error string equals the store's reported message, or
the exception's message with "Unknown error" substituted for a non-`Error`
throw; it is non-empty whenever the underlying message is non-empty (but may
be empty when the store reports an empty message). -/
theorem errors_normalized (m : String) (isErr : Bool) (d : Option (List StoredRow)) :
    (m ≠ "" → caughtMessage isErr m ≠ "") ∧
    caughtMessage false m = "Unknown error" ∧
    saveBooking (RemoteOutcome.raise isErr m)
      = { success := false, error := some (caughtMessage isErr m) } ∧
    saveBooking (RemoteOutcome.respond (some m) ())
      = { success := false, error := some m } ∧
    updateBookingStatus (RemoteOutcome.raise isErr m)
      = { success := false, error := some (caughtMessage isErr m) } ∧
    updateBookingStatus (RemoteOutcome.respond (some m) ())
      = { success := false, error := some m } ∧
    fetchUserBookings (RemoteOutcome.raise isErr m)
      = { bookings := [], error := some (caughtMessage isErr m) } ∧
    fetchUserBookings (RemoteOutcome.respond (some m) d)
      = { bookings := [], error := some m } ∧
    fetchAllBookings (RemoteOutcome.raise isErr m)
      = { bookings := [], error := some (caughtMessage isErr m) } ∧
    fetchAllBookings (RemoteOutcome.respond (some m) d)
      = { bookings := [], error := some m } := by
  refine ⟨?_, rfl, rfl, rfl, rfl, rfl, rfl, rfl, rfl, rfl⟩
  intro h
  cases isErr with
  | false => simp [caughtMessage]
  | true => simpa [caughtMessage] using h

/-- Claim C2, witness: the normalization theorem applied at the concrete
message "boom" raised as a genuine `Error`. -/
theorem errors_normalized_witness :
    ("boom" : String) ≠ "" ∧ caughtMessage true "boom" ≠ "" :=
  ⟨by decide, (errors_normalized "boom" true none).1 (by decide)⟩

/-- Claim C5: against a healthy store, `fetchUserBookings p` returns, with no
error field, exactly the Bookings mapped from the rows whose `user_phone`
equals `p` (a permutation of the mapped exact matches, with equal length — no
limit), ordered by descending `timestamp`, and every returned Booking carries
phone `p`. -/
theorem fetchUserBookings_filter_order (store : List StoredRow) (p : String) :
    (fetchUserBookingsOn store p).error = none ∧
    (fetchUserBookingsOn store p).bookings.Perm
      ((store.filter (fun r => r.row.user_phone = p)).map mapFromRow) ∧
    List.Pairwise (fun a b : Booking => b.timestamp ≤ a.timestamp)
      (fetchUserBookingsOn store p).bookings ∧
    (∀ b ∈ (fetchUserBookingsOn store p).bookings, b.userPhone = p) ∧
    (fetchUserBookingsOn store p).bookings.length
      = (store.filter (fun r => r.row.user_phone = p)).length := by
  have hb : (fetchUserBookingsOn store p).bookings
      = ((store.filter (fun r => r.row.user_phone = p)).mergeSort tsGe).map mapFromRow := rfl
  refine ⟨rfl, ?_, ?_, ?_, ?_⟩
  · rw [hb]
    exact (List.mergeSort_perm _ tsGe).map mapFromRow
  · rw [hb, List.pairwise_map]
    refine List.Pairwise.imp ?_ (List.sorted_mergeSort tsGe_trans tsGe_total _)
    intro a b h
    simpa [tsGe, mapFromRow] using h
  · rw [hb]
    intro b hbm
    obtain ⟨r, hr, rfl⟩ := List.mem_map.1 hbm
    have hrf : r ∈ store.filter (fun r => r.row.user_phone = p) :=
      (List.mergeSort_perm _ tsGe).mem_iff.1 hr
    have := (List.mem_filter.1 hrf).2
    simpa [mapFromRow] using this
  · rw [hb, List.length_map, (List.mergeSort_perm _ tsGe).length_eq]

/-- Claim C6: against a healthy store and a positive limit `n`,
`fetchAllBookings n` returns, with no error field, at most `n` Bookings,
namely the first `n` rows of a descending-`timestamp` sort of the whole store
(a permutation of the store, sorted descending) — i.e. the `n` most recent
rows — mapped to Bookings and still in descending `timestamp` order. -/
theorem fetchAllBookings_limit_recent (store : List StoredRow) (n : Int) (hn : 0 < n) :
    (fetchAllBookingsOn store n).error = none ∧
    ((fetchAllBookingsOn store n).bookings.length : Int) ≤ n ∧
    (fetchAllBookingsOn store n).bookings
      = ((store.mergeSort tsGe).take n.toNat).map mapFromRow ∧
    (store.mergeSort tsGe).Perm store ∧
    List.Pairwise (fun a b => tsGe a b = true) (store.mergeSort tsGe) ∧
    List.Pairwise (fun a b : Booking => b.timestamp ≤ a.timestamp)
      (fetchAllBookingsOn store n).bookings := by
  have hb : (fetchAllBookingsOn store n).bookings
      = ((store.mergeSort tsGe).take n.toNat).map mapFromRow := rfl
  refine ⟨rfl, ?_, hb, List.mergeSort_perm store tsGe,
    List.sorted_mergeSort tsGe_trans tsGe_total store, ?_⟩
  · have h1 : (fetchAllBookingsOn store n).bookings.length ≤ n.toNat := by
      rw [hb, List.length_map]
      exact (List.length_take _ _).le.trans (Nat.min_le_left _ _)
    omega
  · rw [hb, List.pairwise_map]
    refine List.Pairwise.imp ?_
      ((List.sorted_mergeSort tsGe_trans tsGe_total store).sublist (List.take_sublist _ _))
    intro a b h
    simpa [tsGe, mapFromRow] using h

/-- A concrete two-row store used to witness the limit theorem. -/
def rowOld : StoredRow :=
  { row := { id := "BKold", user_name := "Cy", user_phone := "555-0102",
             pickup_location := { lat := 1, lng := 2, address := none },
             drop_location := { lat := 3, lng := 4, address := none },
             taxi_tier := "economy", distance := 1, fare := 30, status := "completed",
             taxi_id := none, eta := none, timestamp := 5 },
    created_at := some 5 }

/-- A second, more recent concrete row. -/
def rowNew : StoredRow :=
  { row := { rowOld.row with id := "BKnew", timestamp := 9 }, created_at := some 9 }

/-- Claim C6, witness: the limit theorem applied at the concrete two-row store
with limit 1. -/
theorem fetchAllBookings_limit_recent_witness :
    (0 : Int) < 1 ∧
    ((fetchAllBookingsOn [rowOld, rowNew] 1).bookings.length : Int) ≤ 1 :=
  ⟨by decide, (fetchAllBookings_limit_recent [rowOld, rowNew] 1 (by decide)).2.1⟩

/-- Claim C7: `updateBookingStatus` reports success whenever the remote call
does not error, even when zero rows match the given id: against a healthy
store containing no row with that id, the result is `{success:true}` — exactly
the same result as a matching update — and the store is unchanged (silent
no-op, not distinguished from a successful update). -/
theorem updateStatus_zero_rows_success (store : List StoredRow) (bookingId status : String)
    (h : ∀ r ∈ store, r.row.id ≠ bookingId) :
    updateBookingStatus (RemoteOutcome.respond none ())
      = { success := true, error := none } ∧
    updateBookingStatusOn store bookingId status = store := by
  refine ⟨rfl, ?_⟩
  unfold updateBookingStatusOn runUpdate updateBookingStatusQuery
  conv_rhs => rw [← List.map_id store]
  exact List.map_congr_left fun r hr => by simp [h r hr]

/-- A concrete row whose id is not the one being updated. -/
def rowBK2 : StoredRow :=
  { row := { id := "BK2", user_name := "Bo", user_phone := "555-0101",
             pickup_location := { lat := 1, lng := 2, address := none },
             drop_location := { lat := 3, lng := 4, address := none },
             taxi_tier := "standard", distance := 2, fare := 50, status := "pending",
             taxi_id := none, eta := none, timestamp := 10 },
    created_at := none }

/-- Claim C7, witness: the zero-row-match theorem applied at a concrete store
holding only a row with id "BK2" while "BK1" is updated. -/
theorem updateStatus_zero_rows_success_witness :
    (∀ r ∈ [rowBK2], r.row.id ≠ "BK1") ∧
    updateBookingStatus (RemoteOutcome.respond none ())
      = { success := true, error := none } ∧
    updateBookingStatusOn [rowBK2] "BK1" "completed" = [rowBK2] :=
  ⟨by decide,
   (updateStatus_zero_rows_success [rowBK2] "BK1" "completed" (by decide)).1,
   (updateStatus_zero_rows_success [rowBK2] "BK1" "completed" (by decide)).2⟩

/-- Claim C8: the store after `updateBookingStatus` has the same length, and
row by row: a row whose id equals `bookingId` has exactly its `status` column
replaced (every other column, `created_at` included, kept), and a row with a
different id is unchanged. -/
theorem updateStatus_frame (store : List StoredRow) (bookingId status : String) (i : Nat) :
    (updateBookingStatusOn store bookingId status).length = store.length ∧
    (updateBookingStatusOn store bookingId status)[i]? =
      (store[i]?).map (fun r =>
        if r.row.id = bookingId
        then { r with row := { r.row with status := status } }
        else r) := by
  constructor
  · simp [updateBookingStatusOn, runUpdate, updateBookingStatusQuery]
  · simp [updateBookingStatusOn, runUpdate, updateBookingStatusQuery, List.getElem?_map]

end SkyRide
